import Mathlib

/-!
Verification development for the SevenShift fleet-management frontend.

Part 1 embeds the authenticated API client
(src/frontend/src/api/client.js): an axios instance whose request
interceptor attaches the stored access token as a bearer header, and whose
response interceptor, on a 401 response for a request not yet marked
retried, posts the stored refresh token to the refresh endpoint via bare
axios, stores the new access token and re-issues the original request; on
refresh failure it clears both stored tokens and redirects to the login
page, rejecting with the original error.

Part 2 embeds the vehicle list view (src/unnamed/part_001): reactive
state `vehicles`, `count`, `loading`, the filters `search`, `statusFilter`,
`makeFilter`, the 1-based `page` with fixed `pageSize = 25`,
`fetchVehicles`, the watchers on the filters and on `page`, and the
Prev/Next pagination buttons. Records are opaque to the controller and are
modelled by natural-number identifiers.
-/

namespace SevenShift

/-- Stored session credentials: localStorage keys access_token and
refresh_token; `none` models an absent key (getItem returns null). -/
structure Creds where
  access : Option String
  refresh : Option String
deriving DecidableEq

/-- Result of one HTTP dispatch: a resolved response body, or a rejection
carrying the response status code. -/
inductive HttpResult where
  | ok (body : String)
  | err (status : Nat)
deriving DecidableEq

/-- The axios request config threaded through the interceptors
(error.config): the Authorization header currently set on it, and the
ad-hoc retried flag the response interceptor sets before re-issuing. -/
structure ReqConfig where
  auth : Option String
  retried : Bool
deriving DecidableEq

/-- A POST to /api/auth/token/refresh/ as issued by the response
interceptor through bare axios (not through apiClient): the Authorization
header it carries and the refresh token sent in its body. -/
structure RefreshCall where
  auth : Option String
  body : Option String
deriving DecidableEq

/-- The backend as observed by the client during one request: `api`
resolves an apiClient dispatch from the Authorization header it carries;
`refreshEndpoint` resolves the refresh POST from the submitted refresh
token, returning the new access token on success and `none` on failure. -/
structure Backend where
  api : Option String → HttpResult
  refreshEndpoint : Option String → Option String

/-- Everything observable about running one request through the client:
the settled value the caller sees, the credentials left in storage,
whether the browser was redirected to /login, the refresh calls issued,
and the Authorization headers of the apiClient dispatches in order. -/
structure ClientOutcome where
  result : HttpResult
  creds : Creds
  redirected : Bool
  refreshCalls : List RefreshCall
  attempts : List (Option String)
deriving DecidableEq

/-- The request interceptor (client.js lines 8-12): if an access token is
stored, set the Authorization header to it as a bearer credential,
otherwise leave the config untouched. -/
def applyRequestInterceptor (creds : Creds) (cfg : ReqConfig) : ReqConfig :=
  match creds.access with
  | some tok => { cfg with auth := some ("Bearer " ++ tok) }
  | none => cfg

/-- The apiClient pipeline for a config already marked retried (the
re-entry `apiClient(original)` on the refresh-success path, and any direct
call with the retried mark set): request interceptor, dispatch, response
interceptor. Because `_retry` is set, the 401 branch of the response
interceptor is dead, so every rejection propagates unchanged. -/
def dispatchRetried (b : Backend) (creds : Creds) (cfg : ReqConfig) : ClientOutcome :=
  let auth := (applyRequestInterceptor creds cfg).auth
  match b.api auth with
  | .ok body => ⟨.ok body, creds, false, [], [auth]⟩
  | .err status => ⟨.err status, creds, false, [], [auth]⟩

/-- One request through apiClient (client.js lines 8-34): the request
interceptor runs, the request is dispatched, and the response interceptor
handles a rejection. On a 401 for a config not yet marked retried, the
interceptor marks it retried, posts the stored refresh token to the
refresh endpoint via bare axios; on success it stores the new access
token, sets the bearer header to it and re-enters apiClient with the
original config — the re-entered pipeline is `dispatchRetried`, since the
config now carries `retried := true` and the recursion stops there. On
refresh failure it removes both stored tokens, redirects to /login and
rejects with the original error. Any other rejection, and a 401 on a
config already marked retried, propagates unchanged. -/
def runRequest (b : Backend) (creds : Creds) (cfg : ReqConfig) : ClientOutcome :=
  let auth := (applyRequestInterceptor creds cfg).auth
  match b.api auth with
  | .ok body => ⟨.ok body, creds, false, [], [auth]⟩
  | .err status =>
    if status == 401 && !cfg.retried then
      match b.refreshEndpoint creds.refresh with
      | some newAccess =>
        let r := dispatchRetried b { creds with access := some newAccess }
          ⟨some ("Bearer " ++ newAccess), true⟩
        ⟨r.result, r.creds, r.redirected, ⟨none, creds.refresh⟩ :: r.refreshCalls,
          auth :: r.attempts⟩
      | none =>
        ⟨.err status, ⟨none, none⟩, true, [⟨none, creds.refresh⟩], [auth]⟩
    else
      ⟨.err status, creds, false, [], [auth]⟩

/-! ## The vehicle list view (src/unnamed/part_001)

The component keeps refs `vehicles`, `count`, `loading`, `search`,
`statusFilter`, `makeFilter`, `page` and a constant `pageSize = 25`.
`fetchVehicles` sets `loading`, snapshots the request parameters from the
current refs, awaits the list endpoint and, when the response resolves,
assigns `vehicles` and `count`; a `finally` clears `loading`; there is no
`catch` and no check that the response belongs to the latest request.
Watchers: a change to any filter resets `page` to 1 and calls
`fetchVehicles`; a change to `page` calls `fetchVehicles`. The Prev/Next
buttons decrement/increment `page` and are disabled at `page <= 1` and
`page >= totalPages()` respectively. -/

/-- Fixed page size of the vehicle list (const pageSize = 25). -/
def pageSize : Nat := 25

/-- The reactive state of the vehicle list component. Vehicle records are
opaque to the controller and modelled by natural-number identifiers. -/
structure ListState where
  vehicles : List Nat
  count : Nat
  loading : Bool
  search : String
  statusFilter : String
  makeFilter : String
  page : Nat
deriving DecidableEq

/-- The JS idiom `s || undefined` on a string filter: the empty string is
falsy, so an empty filter becomes undefined. -/
def orUndefined (s : String) : Option String :=
  if s = "" then none else some s

/-- The params object built inside fetchVehicles: each filter is passed
through `|| undefined`; page and page_size are passed as-is. -/
structure FetchParams where
  search : Option String
  status : Option String
  make : Option String
  page : Nat
  page_size : Nat
deriving DecidableEq

/-- Snapshot of the request parameters taken when fetchVehicles runs. -/
def fetchParams (st : ListState) : FetchParams :=
  ⟨orUndefined st.search, orUndefined st.statusFilter, orUndefined st.makeFilter,
    st.page, pageSize⟩

/-- The query-parameter list axios sends for a params object: entries
whose value is undefined are omitted from serialization, the rest keep
the object key order. -/
def serializeParams (p : FetchParams) : List (String × String) :=
  (match p.search with | some v => [("search", v)] | none => []) ++
  (match p.status with | some v => [("status", v)] | none => []) ++
  (match p.make with | some v => [("make", v)] | none => []) ++
  [("page", toString p.page), ("page_size", toString p.page_size)]

/-- What the awaited list call resumes with: a resolved page of results
with its total count, or a rejection. -/
inductive FetchOutcome where
  | success (results : List Nat) (cnt : Nat)
  | failure
deriving DecidableEq

/-- The continuation of fetchVehicles after the await: a resolved response
assigns `vehicles` and `count`; the `finally` clears `loading` in both
outcomes; there is no `catch`, so a rejection changes nothing else. -/
def applyOutcome (st : ListState) (o : FetchOutcome) : ListState :=
  match o with
  | .success results cnt => { st with vehicles := results, count := cnt, loading := false }
  | .failure => { st with loading := false }

/-- The whole component: its reactive state, a counter assigning identities
to issued requests, and the requests currently in flight with the
parameter snapshot each one carries. -/
structure Sys where
  st : ListState
  nextId : Nat
  pending : List (Nat × FetchParams)
deriving DecidableEq

/-- fetchVehicles up to its first await: set `loading := true` and put the
request, with the parameters snapshotted from the current state, in
flight. -/
def issueFetch (s : Sys) : Sys :=
  { st := { s.st with loading := true },
    nextId := s.nextId + 1,
    pending := s.pending ++ [(s.nextId, fetchParams s.st)] }

/-- The watcher on [search, statusFilter, makeFilter], run after the
changed filter ref holds its new value: it sets `page` to 1 and calls
fetchVehicles. Because `page` is itself watched, a filter change made
while `page ≠ 1` also queues the page watcher, which issues a second
fetch; both snapshots carry the already-reset `page = 1`. -/
def filterChanged (s : Sys) : Sys :=
  let pageWas := s.st.page
  let s2 := issueFetch { s with st := { s.st with page := 1 } }
  if pageWas = 1 then s2 else issueFetch s2

/-- Total page count: Math.ceil(count / pageSize) on naturals. -/
def totalPages (st : ListState) : Nat :=
  (st.count + pageSize - 1) / pageSize

/-- Whether the Prev button acts: it is disabled at page <= 1. -/
def hasPrev (st : ListState) : Bool :=
  decide (1 < st.page)

/-- Whether the Next button acts: it is disabled at page >= totalPages(). -/
def hasNext (st : ListState) : Bool :=
  decide (st.page < totalPages st)

/-- A click on Prev: disabled (a no-op) at page <= 1, otherwise page is
decremented and the page watcher issues a fetch. -/
def prevClick (s : Sys) : Sys :=
  if hasPrev s.st then issueFetch { s with st := { s.st with page := s.st.page - 1 } }
  else s

/-- A click on Next: disabled (a no-op) at page >= totalPages(), otherwise
page is incremented and the page watcher issues a fetch. -/
def nextClick (s : Sys) : Sys :=
  if hasNext s.st then issueFetch { s with st := { s.st with page := s.st.page + 1 } }
  else s

/-- The events the component reacts to: a user changing one of the three
filters to a new value, a click on a pagination button, and the arrival of
the response to an in-flight request. -/
inductive Event where
  | setSearch (v : String)
  | setStatus (v : String)
  | setMake (v : String)
  | prevClick
  | nextClick
  | respond (id : Nat) (o : FetchOutcome)
deriving DecidableEq

/-- Arrival of the response to in-flight request `id`: the request leaves
flight and its outcome is applied to the state unconditionally — the code
has no staleness check, so whichever response arrives is committed, first
or stale alike. A response carrying an unknown id is ignored. -/
def respond (s : Sys) (id : Nat) (o : FetchOutcome) : Sys :=
  if s.pending.any (fun r => r.1 == id) then
    { s with st := applyOutcome s.st o,
             pending := s.pending.filter (fun r => r.1 != id) }
  else s

/-- One step of the component. -/
def step (s : Sys) : Event → Sys
  | .setSearch v => filterChanged { s with st := { s.st with search := v } }
  | .setStatus v => filterChanged { s with st := { s.st with statusFilter := v } }
  | .setMake v => filterChanged { s with st := { s.st with makeFilter := v } }
  | .prevClick => prevClick s
  | .nextClick => nextClick s
  | .respond id o => respond s id o

/-- A run of the component over a list of events. -/
def run (s : Sys) (es : List Event) : Sys :=
  es.foldl step s

/-- The component state right after mount: empty results, empty filters,
page 1, and the onMounted fetch in flight. -/
def initialSys : Sys :=
  issueFetch ⟨⟨[], 0, false, "", "", "", 1⟩, 0, []⟩

/-! ## Concrete scenarios used as witnesses and counterexamples -/

/-- A backend on which the stored access token t0 is expired (any request
not bearing t1 gets a 401), refresh token r0 is valid and yields access
token t1, and a request bearing t1 succeeds. -/
def demoBackend : Backend where
  api := fun auth => if auth == some ("Bearer t1") then .ok ("payload") else .err 401
  refreshEndpoint := fun r => if r == some ("r0") then some ("t1") else none

/-- A backend on which every apiClient request gets a 401 and the refresh
endpoint always fails. -/
def demoFailBackend : Backend where
  api := fun _ => .err 401
  refreshEndpoint := fun _ => none

/-- The stored credentials of the demo scenarios. -/
def demoCreds : Creds := ⟨some ("t0"), some ("r0")⟩

/-- Two requests whose 401 rejections are both handled before either
refresh call resolves. Execution is single-threaded and event-driven, so
this interleaving has each response interceptor read the same stored
credentials before either refresh completes; client.js keeps no shared
in-flight-refresh state, so the two handlers proceed independently. Total
number of refresh calls issued across the two requests. -/
def concurrentRefreshCalls (b : Backend) (creds : Creds) (cfg1 cfg2 : ReqConfig) : Nat :=
  (runRequest b creds cfg1).refreshCalls.length +
    (runRequest b creds cfg2).refreshCalls.length

/-- A component state with a previously loaded page ([5], count 1) and one
request in flight (id 2). -/
def priorSys : Sys :=
  ⟨⟨[5], 1, true, "", "", "", 1⟩, 3, [(2, fetchParams ⟨[5], 1, false, "", "", "", 1⟩)]⟩

/-- A fixed state for pagination facts: count 57 and the given page. -/
def mkState (cnt pg : Nat) : ListState :=
  ⟨[], cnt, false, "", "", "", pg⟩

/-! ## Helper lemmas -/

/-- A pipeline entered with the retried mark set never reaches the refresh
endpoint. -/
lemma dispatchRetried_refreshCalls (b : Backend) (creds : Creds) (cfg : ReqConfig) :
    (dispatchRetried b creds cfg).refreshCalls = [] := by
  cases h : b.api (applyRequestInterceptor creds cfg).auth <;>
    simp [dispatchRetried, h]

/-- The settled value of a retried dispatch is exactly what the backend
answered to it. -/
lemma dispatchRetried_result (b : Backend) (creds : Creds) (cfg : ReqConfig) :
    (dispatchRetried b creds cfg).result =
      b.api (applyRequestInterceptor creds cfg).auth := by
  cases h : b.api (applyRequestInterceptor creds cfg).auth <;>
    simp [dispatchRetried, h]

/-- A request whose config carries the retried mark issues no refresh
call: the 401 branch of the response interceptor is guarded by the
negation of the mark. -/
lemma runRequest_retried_refreshCalls (b : Backend) (creds : Creds) (auth1 : Option String) :
    (runRequest b creds ⟨auth1, true⟩).refreshCalls = [] := by
  cases h : b.api (applyRequestInterceptor creds ⟨auth1, true⟩).auth <;>
    simp [runRequest, h]

/-- A not-yet-retried request whose dispatch is answered 401 issues
exactly one refresh call, whatever the refresh outcome. -/
lemma runRequest_one_refresh (b : Backend) (creds : Creds) (tok : String)
    (auth0 : Option String) (haccess : creds.access = some tok)
    (h401 : b.api (some ("Bearer " ++ tok)) = .err 401) :
    (runRequest b creds ⟨auth0, false⟩).refreshCalls.length = 1 := by
  unfold runRequest
  simp only [applyRequestInterceptor, haccess, h401]
  cases b.refreshEndpoint creds.refresh <;>
    simp [dispatchRetried_refreshCalls]

/-! ## Claims about the API client -/

/-- C2: for a request whose response is a 401 and that is not yet marked
retried, if the stored refresh token refreshes successfully, the new
access token is stored, the original request is re-issued exactly once
bearing the new token (the dispatch log is exactly the original attempt
followed by the one retry), and the retried result is returned to the
caller, who never observes the 401; and a request already marked retried
never reaches the refresh endpoint. -/
theorem C2_refresh_success_transparent_retry (b : Backend) (creds : Creds)
    (tok newTok body : String) (auth0 : Option String)
    (haccess : creds.access = some tok)
    (h401 : b.api (some ("Bearer " ++ tok)) = .err 401)
    (hrefresh : b.refreshEndpoint creds.refresh = some newTok)
    (hretry : b.api (some ("Bearer " ++ newTok)) = .ok body) :
    (runRequest b creds ⟨auth0, false⟩).creds.access = some newTok ∧
    (runRequest b creds ⟨auth0, false⟩).attempts =
      [some ("Bearer " ++ tok), some ("Bearer " ++ newTok)] ∧
    (runRequest b creds ⟨auth0, false⟩).result = .ok body ∧
    (runRequest b creds ⟨auth0, false⟩).refreshCalls.length = 1 ∧
    (runRequest b creds ⟨auth0, true⟩).refreshCalls = [] := by
  refine ⟨?_, ?_, ?_, ?_, runRequest_retried_refreshCalls b creds auth0⟩ <;>
    simp [runRequest, applyRequestInterceptor, haccess, h401, hrefresh,
      dispatchRetried, hretry]

/-- Witness for C2 on the demo backend: access token t0 is rejected,
refresh token r0 yields t1, and the retried request succeeds. -/
theorem C2_refresh_success_transparent_retry_witness :
    (runRequest demoBackend demoCreds ⟨none, false⟩).creds.access = some ("t1") ∧
    (runRequest demoBackend demoCreds ⟨none, false⟩).attempts =
      [some ("Bearer " ++ "t0"), some ("Bearer " ++ "t1")] ∧
    (runRequest demoBackend demoCreds ⟨none, false⟩).result = .ok ("payload") ∧
    (runRequest demoBackend demoCreds ⟨none, false⟩).refreshCalls.length = 1 ∧
    (runRequest demoBackend demoCreds ⟨none, true⟩).refreshCalls = [] :=
  C2_refresh_success_transparent_retry demoBackend demoCreds ("t0") ("t1")
    ("payload") none (by decide) (by decide) (by decide) (by decide)

/-- C3: for a request whose response is a 401, if the refresh call also
fails, both stored credentials are removed, the browser is redirected to
the login page, and the caller receives the 401 (Unauthorized). -/
theorem C3_refresh_failure_clears_credentials (b : Backend) (creds : Creds)
    (tok : String) (auth0 : Option String)
    (haccess : creds.access = some tok)
    (h401 : b.api (some ("Bearer " ++ tok)) = .err 401)
    (hrefresh : b.refreshEndpoint creds.refresh = none) :
    (runRequest b creds ⟨auth0, false⟩).creds = ⟨none, none⟩ ∧
    (runRequest b creds ⟨auth0, false⟩).result = .err 401 ∧
    (runRequest b creds ⟨auth0, false⟩).redirected = true := by
  simp [runRequest, applyRequestInterceptor, haccess, h401, hrefresh]

/-- Witness for C3 on the backend whose refresh endpoint always fails. -/
theorem C3_refresh_failure_clears_credentials_witness :
    (runRequest demoFailBackend demoCreds ⟨none, false⟩).creds = ⟨none, none⟩ ∧
    (runRequest demoFailBackend demoCreds ⟨none, false⟩).result = .err 401 ∧
    (runRequest demoFailBackend demoCreds ⟨none, false⟩).redirected = true :=
  C3_refresh_failure_clears_credentials demoFailBackend demoCreds ("t0") none
    (by decide) (by decide) (by decide)

/-- C5 is false of the code: on the demo backend, two requests whose 401
rejections are both handled while neither refresh has resolved issue two
refresh calls in total, not one — client.js keeps no in-flight-refresh
state for a second caller to await. -/
theorem C5_counterexample :
    concurrentRefreshCalls demoBackend demoCreds ⟨none, false⟩ ⟨none, false⟩ = 2 ∧
    concurrentRefreshCalls demoBackend demoCreds ⟨none, false⟩ ⟨none, false⟩ ≠ 1 := by
  decide

/-- C5 (amended): every 401-failing, not-yet-retried request triggers its
own refresh call, so two requests failing at overlapping times issue two
refresh calls in total — one each, never a shared one. -/
theorem C5_refresh_per_request (b : Backend) (creds : Creds) (tok : String)
    (auth1 auth2 : Option String)
    (haccess : creds.access = some tok)
    (h401 : b.api (some ("Bearer " ++ tok)) = .err 401) :
    concurrentRefreshCalls b creds ⟨auth1, false⟩ ⟨auth2, false⟩ = 2 := by
  unfold concurrentRefreshCalls
  rw [runRequest_one_refresh b creds tok auth1 haccess h401,
    runRequest_one_refresh b creds tok auth2 haccess h401]

/-- Witness for the amended C5 on the demo backend. -/
theorem C5_refresh_per_request_witness :
    concurrentRefreshCalls demoBackend demoCreds ⟨none, false⟩ ⟨some ("x"), false⟩ = 2 :=
  C5_refresh_per_request demoBackend demoCreds ("t0") none (some ("x"))
    (by decide) (by decide)

/-- C10: every refresh call issued while processing a request is sent
without an Authorization header (it goes through bare axios, whose config
is only the refresh body), and a request issues at most one refresh call
even when the refresh itself fails — the refresh POST does not pass
through the apiClient response interceptor, so its failure cannot trigger
a further refresh. -/
theorem C10_refresh_unauthenticated_nonrecursive (b : Backend) (creds : Creds)
    (cfg : ReqConfig) :
    ((runRequest b creds cfg).refreshCalls.all fun c => c.auth.isNone) = true ∧
    (runRequest b creds cfg).refreshCalls.length ≤ 1 := by
  cases h : b.api (applyRequestInterceptor creds cfg).auth with
  | ok body => simp [runRequest, h]
  | err status =>
    by_cases hc : (status == 401 && !cfg.retried) = true
    · cases hr : b.refreshEndpoint creds.refresh <;>
        simp [runRequest, h, hc, hr, dispatchRetried_refreshCalls]
    · simp [runRequest, h, hc]

/-! ## Claims about the list controller -/

/-- The race trace from the mounted component: request 1 (A, search a) is
issued, then request 2 (B, search ab); B answers first with page [2] of
count 7, then A answers late with page [1] of count 3. -/
def raceTrace : List Event :=
  [.setSearch ("a"), .setSearch ("ab"),
    .respond 2 (.success [2] 7), .respond 1 (.success [1] 3)]

/-- C1 is false of the code: on the race trace, fetch A is issued before
fetch B and B answers first, yet the final vehicles/count are A's result
([1], 3), not B's ([2], 7) — fetchVehicles commits whatever response
arrives, with no check against a newer outstanding request. -/
theorem C1_counterexample :
    (run initialSys raceTrace).st.vehicles = [1] ∧
    (run initialSys raceTrace).st.count = 3 ∧
    ¬((run initialSys raceTrace).st.vehicles = [2] ∧
      (run initialSys raceTrace).st.count = 7) := by
  decide

/-- C1 (amended): the controller applies whichever in-flight response
arrives, unconditionally — last arrival wins. A response belonging to any
in-flight request, stale or not, overwrites vehicles and count with its
own payload, so when a superseded request answers last its result stands. -/
theorem C1_last_arrival_wins (s : Sys) (id : Nat) (results : List Nat) (cnt : Nat)
    (hpending : s.pending.any (fun r => r.1 == id) = true) :
    (step s (.respond id (.success results cnt))).st.vehicles = results ∧
    (step s (.respond id (.success results cnt))).st.count = cnt := by
  simp [step, respond, hpending, applyOutcome]

/-- Witness for the amended C1: the mounted fetch answers and its payload
is committed. -/
theorem C1_last_arrival_wins_witness :
    (step initialSys (.respond 0 (.success [9] 4))).st.vehicles = [9] ∧
    (step initialSys (.respond 0 (.success [9] 4))).st.count = 4 :=
  C1_last_arrival_wins initialSys 0 [9] 4 (by decide)

/-- C4 is false of the code as stated: after the in-flight request of
priorSys fails, the component state equals the prior state with only
loading cleared — every other field is unchanged, so nothing in the
component is set to an error value: the component has no error state at
all (fetchVehicles has a finally but no catch, and the rejection
propagates unhandled). -/
theorem C4_counterexample :
    step priorSys (.respond 2 .failure) =
      ⟨⟨[5], 1, false, "", "", "", 1⟩, 3, []⟩ := by
  decide

/-- C4 (amended): a fetch that fails leaves vehicles and count unchanged
from their prior values, and loading becomes false on completion of every
fetch, in success and failure alike; no error value is recorded anywhere
in the component state. -/
theorem C4_failure_keeps_items (s : Sys) (id : Nat) (o : FetchOutcome)
    (hpending : s.pending.any (fun r => r.1 == id) = true) :
    (step s (.respond id o)).st.loading = false ∧
    (step s (.respond id .failure)).st.vehicles = s.st.vehicles ∧
    (step s (.respond id .failure)).st.count = s.st.count := by
  refine ⟨?_, ?_, ?_⟩
  · cases o <;> simp [step, respond, hpending, applyOutcome]
  · simp [step, respond, hpending, applyOutcome]
  · simp [step, respond, hpending, applyOutcome]

/-- Witness for the amended C4 at the priorSys scenario. -/
theorem C4_failure_keeps_items_witness :
    (step priorSys (.respond 2 FetchOutcome.failure)).st.loading = false ∧
    (step priorSys (.respond 2 FetchOutcome.failure)).st.vehicles = priorSys.st.vehicles ∧
    (step priorSys (.respond 2 FetchOutcome.failure)).st.count = priorSys.st.count :=
  C4_failure_keeps_items priorSys 2 FetchOutcome.failure (by decide)

/-- After a filter-change watcher runs, page is 1, at least one fetch was
issued, and every newly issued fetch snapshot carries page 1. -/
lemma filterChanged_spec (s : Sys) :
    (filterChanged s).st.page = 1 ∧
    s.pending.length < (filterChanged s).pending.length ∧
    (((filterChanged s).pending.drop s.pending.length).all
      fun r => r.2.page == 1) = true := by
  by_cases h : s.st.page = 1 <;>
    simp [filterChanged, issueFetch, fetchParams, h, List.append_assoc,
      List.drop_left]

/-- C6: changing any of the three filters resets page to 1 on the spot:
after the watcher runs, page is 1, a re-fetch was issued, and every fetch
issued by the change already carries page 1 in its snapshot — the reset
happens before the re-fetch is issued. -/
theorem C6_filter_change_resets_page (s : Sys) (v : String) :
    ((step s (.setSearch v)).st.page = 1 ∧
      s.pending.length < (step s (.setSearch v)).pending.length ∧
      (((step s (.setSearch v)).pending.drop s.pending.length).all
        fun r => r.2.page == 1) = true) ∧
    ((step s (.setStatus v)).st.page = 1 ∧
      s.pending.length < (step s (.setStatus v)).pending.length ∧
      (((step s (.setStatus v)).pending.drop s.pending.length).all
        fun r => r.2.page == 1) = true) ∧
    ((step s (.setMake v)).st.page = 1 ∧
      s.pending.length < (step s (.setMake v)).pending.length ∧
      (((step s (.setMake v)).pending.drop s.pending.length).all
        fun r => r.2.page == 1) = true) := by
  exact ⟨filterChanged_spec _, filterChanged_spec _, filterChanged_spec _⟩

/-- A Prev click from a page within range stays within range: the button
is disabled at page 1 and otherwise decrements; count is untouched. -/
lemma prevClick_range (s : Sys) (h1 : 1 ≤ s.st.page)
    (h2 : s.st.page ≤ totalPages s.st) :
    1 ≤ (prevClick s).st.page ∧
      (prevClick s).st.page ≤ totalPages (prevClick s).st := by
  unfold prevClick hasPrev
  split_ifs with h
  · simp only [decide_eq_true_eq] at h
    simp only [issueFetch, totalPages] at h2 ⊢
    exact ⟨by omega, by omega⟩
  · exact ⟨h1, h2⟩

/-- A Next click from a page within range stays within range: the button
is disabled at page ≥ totalPages and otherwise increments; count is
untouched. -/
lemma nextClick_range (s : Sys) (h1 : 1 ≤ s.st.page)
    (h2 : s.st.page ≤ totalPages s.st) :
    1 ≤ (nextClick s).st.page ∧
      (nextClick s).st.page ≤ totalPages (nextClick s).st := by
  unfold nextClick hasNext
  split_ifs with h
  · simp only [decide_eq_true_eq] at h
    simp only [issueFetch, totalPages] at h h2 ⊢
    exact ⟨by omega, by omega⟩
  · exact ⟨h1, h2⟩

/-- A filter change from a state whose page range is non-empty lands on
page 1, which is within range; count is untouched. -/
lemma filterChanged_range (s : Sys) (h3 : 1 ≤ totalPages s.st) :
    1 ≤ (filterChanged s).st.page ∧
      (filterChanged s).st.page ≤ totalPages (filterChanged s).st := by
  have hpage : (filterChanged s).st.page = 1 := (filterChanged_spec s).1
  have hcount : (filterChanged s).st.count = s.st.count := by
    by_cases h : s.st.page = 1 <;> simp [filterChanged, issueFetch, h]
  refine ⟨by omega, ?_⟩
  rw [hpage]
  simp only [totalPages, hcount] at h3 ⊢
  omega

/-- C7: from any state whose page lies in the known non-empty range
[1, totalPages], every page-affecting operation — a Prev or Next click
(rejected while disabled, a step of one otherwise) and a change of any
filter (page reset to 1) — leaves page in [1, totalPages]. -/
theorem C7_page_stays_in_range (s : Sys) (v : String)
    (h1 : 1 ≤ s.st.page) (h2 : s.st.page ≤ totalPages s.st)
    (h3 : 1 ≤ totalPages s.st) :
    (1 ≤ (step s .prevClick).st.page ∧
      (step s .prevClick).st.page ≤ totalPages (step s .prevClick).st) ∧
    (1 ≤ (step s .nextClick).st.page ∧
      (step s .nextClick).st.page ≤ totalPages (step s .nextClick).st) ∧
    (1 ≤ (step s (.setSearch v)).st.page ∧
      (step s (.setSearch v)).st.page ≤ totalPages (step s (.setSearch v)).st) ∧
    (1 ≤ (step s (.setStatus v)).st.page ∧
      (step s (.setStatus v)).st.page ≤ totalPages (step s (.setStatus v)).st) ∧
    (1 ≤ (step s (.setMake v)).st.page ∧
      (step s (.setMake v)).st.page ≤ totalPages (step s (.setMake v)).st) :=
  ⟨prevClick_range s h1 h2, nextClick_range s h1 h2,
    filterChanged_range _ h3, filterChanged_range _ h3, filterChanged_range _ h3⟩

/-- Witness for C7: count 57 (totalPages 3) at page 2 with an arbitrary
filter value. -/
theorem C7_page_stays_in_range_witness :
    (1 ≤ (step ⟨mkState 57 2, 0, []⟩ .prevClick).st.page ∧
      (step ⟨mkState 57 2, 0, []⟩ .prevClick).st.page ≤
        totalPages (step ⟨mkState 57 2, 0, []⟩ .prevClick).st) ∧
    (1 ≤ (step ⟨mkState 57 2, 0, []⟩ .nextClick).st.page ∧
      (step ⟨mkState 57 2, 0, []⟩ .nextClick).st.page ≤
        totalPages (step ⟨mkState 57 2, 0, []⟩ .nextClick).st) ∧
    (1 ≤ (step ⟨mkState 57 2, 0, []⟩ (.setSearch ("x"))).st.page ∧
      (step ⟨mkState 57 2, 0, []⟩ (.setSearch ("x"))).st.page ≤
        totalPages (step ⟨mkState 57 2, 0, []⟩ (.setSearch ("x"))).st) ∧
    (1 ≤ (step ⟨mkState 57 2, 0, []⟩ (.setStatus ("x"))).st.page ∧
      (step ⟨mkState 57 2, 0, []⟩ (.setStatus ("x"))).st.page ≤
        totalPages (step ⟨mkState 57 2, 0, []⟩ (.setStatus ("x"))).st) ∧
    (1 ≤ (step ⟨mkState 57 2, 0, []⟩ (.setMake ("x"))).st.page ∧
      (step ⟨mkState 57 2, 0, []⟩ (.setMake ("x"))).st.page ≤
        totalPages (step ⟨mkState 57 2, 0, []⟩ (.setMake ("x"))).st) :=
  C7_page_stays_in_range ⟨mkState 57 2, 0, []⟩ ("x")
    (by decide) (by decide) (by decide)

/-- C8: totalPages is the ceiling of count over pageSize, and at count 57
with pageSize 25 it is 3; the Next button is enabled (hasNext) exactly at
pages 1 and 2 of the three, and the Prev button is disabled (hasPrev
false) only at page 1. -/
theorem C8_derived_pagination :
    (∀ st : ListState, totalPages st = ⌈(st.count : ℚ) / (pageSize : ℚ)⌉₊) ∧
    totalPages (mkState 57 1) = 3 ∧
    hasNext (mkState 57 1) = true ∧ hasNext (mkState 57 2) = true ∧
    hasNext (mkState 57 3) = false ∧
    hasPrev (mkState 57 1) = false ∧ hasPrev (mkState 57 2) = true ∧
    hasPrev (mkState 57 3) = true := by
  refine ⟨?_, by decide, by decide, by decide, by decide, by decide,
    by decide, by decide⟩
  intro st
  have h25 : (0 : ℚ) < (pageSize : ℚ) := by norm_num [pageSize]
  apply le_antisymm
  · have hle : (st.count : ℚ) ≤ (pageSize : ℚ) * ⌈(st.count : ℚ) / (pageSize : ℚ)⌉₊ := by
      calc (st.count : ℚ)
          = (pageSize : ℚ) * ((st.count : ℚ) / (pageSize : ℚ)) := by field_simp
        _ ≤ (pageSize : ℚ) * ⌈(st.count : ℚ) / (pageSize : ℚ)⌉₊ :=
            mul_le_mul_of_nonneg_left (Nat.le_ceil _) (le_of_lt h25)
    have hle' : st.count ≤ pageSize * ⌈(st.count : ℚ) / (pageSize : ℚ)⌉₊ := by
      exact_mod_cast hle
    simp only [totalPages, pageSize] at hle' ⊢
    omega
  · rw [Nat.ceil_le, div_le_iff₀ h25]
    have hup : st.count ≤ totalPages st * pageSize := by
      simp only [totalPages, pageSize]
      omega
    exact_mod_cast hup

/-- C9: the serialized request parameters of any fetch omit each filter
whose current value is empty (it is passed as undefined and dropped), and
carry a non-empty filter with its value; page and page_size are always
present. -/
theorem C9_param_serialization (st : ListState) :
    (serializeParams (fetchParams st)).lookup ("search") =
      (if st.search = "" then none else some st.search) ∧
    (serializeParams (fetchParams st)).lookup ("status") =
      (if st.statusFilter = "" then none else some st.statusFilter) ∧
    (serializeParams (fetchParams st)).lookup ("make") =
      (if st.makeFilter = "" then none else some st.makeFilter) ∧
    (serializeParams (fetchParams st)).lookup ("page") = some (toString st.page) ∧
    (serializeParams (fetchParams st)).lookup ("page_size") =
      some (toString pageSize) := by
  unfold serializeParams fetchParams orUndefined
  by_cases h1 : st.search = "" <;> by_cases h2 : st.statusFilter = "" <;>
    by_cases h3 : st.makeFilter = "" <;>
      simp [h1, h2, h3, List.lookup]

end SevenShift
